import Mathlib

/-!
Verification development for the aquacomputer d5next hwmon driver
(src/aquacomputer_d5next.c).

Modelling conventions:
- Byte buffers (HID reports, the 809-byte configuration blob) are `List Nat`,
  one entry per byte, each entry `< 256` where it models real device data.
- The inbound telemetry message is modelled as a byte memory `Nat → Nat`
  because the C parser reads at fixed offsets without consulting the `size`
  argument: a short message makes it read past the message end.
- The host is little-endian: a C `u16` load of two bytes `[b0, b1]` yields
  `b0 + 256 * b1`, and `ntohs` swaps the two bytes.
- `jiffies` is modelled as a monotone `Nat` clock (no wraparound), so the
  kernel `time_after(a, b)` is simply `b < a`.
- Error codes are the negated errno values used by the driver:
  `-22` (EINVAL), `-61` (ENODATA), `-95` (EOPNOTSUPP).
-/

/-- `HZ` is a kernel configuration constant (ticks per second); its exact
value is irrelevant to the driver logic, `100` is a representative choice. -/
def HZ : Nat := 100

def SENSOR_REPORT_ID : Nat := 0x01

def STATUS_UPDATE_INTERVAL : Nat := 2 * HZ

/-- Start index of the checksummed part of the control report. -/
def STATUS_REPORT_CHECKSUM_START : Nat := 0x01

/-- Length of the checksummed part of the control report. -/
def STATUS_REPORT_CHECKSUM_LENGTH : Nat := 0x326

/-- `sizeof(struct d5next_control_data)`:
1 (version) + 46 (padding) + 2*9 (fan_properties) + 2*85 (fan_ctrl)
+ 572 (padding2) + 2 (crc) = 809. -/
def STATUS_REPORT_SIZE : Nat := 809

def NUM_CTRL_CURVE_POINTS : Nat := 16

def IDX_MIN_PWM : Nat := NUM_CTRL_CURVE_POINTS + 2

def IDX_MAX_PWM : Nat := NUM_CTRL_CURVE_POINTS + 3

/- Sensor-report (telemetry) byte offsets. -/

def SERIAL_FIRST_PART : Nat := 0x3

def SERIAL_SECOND_PART : Nat := 0x5

def FIRMWARE_VERSION : Nat := 0xD

def POWER_CYCLES : Nat := 0x18

def PLUS_5V_VOLTAGE : Nat := 0x39

def COOLANT_TEMP : Nat := 0x57

def FAN_VOLTAGE : Nat := 0x61

def FAN_CURRENT : Nat := 0x63

def FAN_POWER : Nat := 0x65

def FAN_SPEED : Nat := 0x67

def PUMP_VOLTAGE : Nat := 0x6E

def PUMP_CURRENT : Nat := 0x70

def PUMP_POWER : Nat := 0x72

def PUMP_SPEED : Nat := 0x74

def FAN_SETPOINT : Nat := 0x77

def PUMP_SETPOINT : Nat := 0x79

/-- Kernel `DIV_ROUND_CLOSEST` for non-negative operands:
`(x + d/2) / d`, i.e. round-half-up. -/
def DIV_ROUND_CLOSEST (x d : Nat) : Nat := (x + d / 2) / d

/-- `ntohs` on a little-endian host: swap the two bytes of a 16-bit value. -/
def ntohs (x : Nat) : Nat := x % 256 * 256 + x / 256 % 256

/-- `get_unaligned_be16` over a byte memory. -/
def get_unaligned_be16 (data : Nat → Nat) (off : Nat) : Nat :=
  data off % 256 * 256 + data (off + 1) % 256

/-- `get_unaligned_be32` over a byte memory. -/
def get_unaligned_be32 (data : Nat → Nat) (off : Nat) : Nat :=
  ((data off % 256 * 256 + data (off + 1) % 256) * 256 + data (off + 2) % 256) * 256
    + data (off + 3) % 256

/-- A C `u16` load from two consecutive blob bytes on a little-endian host:
the byte at the lower address is the least significant. -/
def read_u16_host (l : List Nat) (off : Nat) : Nat :=
  l.getD off 0 + 256 * l.getD (off + 1) 0

/- Byte offsets inside the packed `struct d5next_control_data` blob:
version at 0, padding[46] at 1..46, fan_properties[2] (9 bytes each) at 47,
fan_ctrl[2] (85 bytes each) at 65, padding2[572] at 235, crc at 807..808. -/

def fan_properties_offset (ch : Nat) : Nat := 47 + 9 * ch

def min_pwm_offset (ch : Nat) : Nat := fan_properties_offset ch + 1

def max_pwm_offset (ch : Nat) : Nat := fan_properties_offset ch + 3

def max_speed_offset (ch : Nat) : Nat := fan_properties_offset ch + 7

def fan_ctrl_offset (ch : Nat) : Nat := 65 + 85 * ch

def mode_offset (ch : Nat) : Nat := fan_ctrl_offset ch

def manual_setpoint_offset (ch : Nat) : Nat := fan_ctrl_offset ch + 1

/-- `fan_ctrl[ch].curve.start_temp`: mode 1 + setpoint 2 + source 2 + pid 14. -/
def curve_start_temp_offset (ch : Nat) : Nat := fan_ctrl_offset ch + 19

/-- Address of `fan_ctrl[ch].curve.temps[i]` as the C pointer arithmetic
computes it, also for `i ≥ 16` (the packed layout continues into `powers`). -/
def curve_temps_offset (ch i : Nat) : Nat := fan_ctrl_offset ch + 21 + 2 * i

/-- Address of `fan_ctrl[ch].curve.powers[i]`. -/
def curve_powers_offset (ch i : Nat) : Nat := fan_ctrl_offset ch + 53 + 2 * i

def crc_offset : Nat := 807

/-- Modelled from the spec: one shift step of the Linux `lib/crc16.c` routine
(not part of this repository), the reflected form of polynomial 0x8005,
i.e. shift right and conditionally xor 0xA001. -/
def crc16_shift (c : Nat) : Nat :=
  if c % 2 = 1 then c / 2 ^^^ 0xA001 else c / 2

/-- Modelled from the spec: the per-byte update of Linux `crc16`:
xor the byte into the low bits, then shift eight times. -/
def crc16_byte (c b : Nat) : Nat := crc16_shift^[8] (c ^^^ b)

/-- Modelled from the spec: Linux `crc16(crc, buffer, len)` over a byte list. -/
def crc16 (c : Nat) (bs : List Nat) : Nat := bs.foldl crc16_byte c

/-- The eight bits of a byte, least-significant first (reflected input order). -/
def byteBits (b : Nat) : List Bool :=
  [b.testBit 0, b.testBit 1, b.testBit 2, b.testBit 3,
   b.testBit 4, b.testBit 5, b.testBit 6, b.testBit 7]

/-- Independent reference bit-serial step for a reflected CRC-16 with
polynomial 0x8005 (0xA001 in shift-right form): compare the incoming bit
with the register's low bit, shift, and xor the polynomial on feedback. -/
def crcBitStep (c : Nat) (bit : Bool) : Nat :=
  if decide (c % 2 = 1) = bit then c / 2 else c / 2 ^^^ 0xA001

/-- Independent reference CRC-16/USB (poly 0x8005 reflected, initial value
0xFFFF, xor-out 0xFFFF), processing the message one bit at a time,
least-significant bit of each byte first. -/
def crc16_usb_ref (msg : List Nat) : Nat :=
  ((msg.map byteBits).flatten.foldl crcBitStep 0xFFFF) ^^^ 0xFFFF

/-- The checksum `d5next_send_ctrl_data` computes: Linux `crc16` with initial
value 0xFFFF over `STATUS_REPORT_CHECKSUM_LENGTH` bytes starting at
`STATUS_REPORT_CHECKSUM_START`, xored with 0xFFFF. -/
def d5next_checksum (buf : List Nat) : Nat :=
  crc16 0xFFFF
      ((buf.drop STATUS_REPORT_CHECKSUM_START).take STATUS_REPORT_CHECKSUM_LENGTH)
    ^^^ 0xFFFF

/-- Device I/O requests issued by the configuration transaction engine. -/
inductive DevOp
  | download
  | upload (blob : List Nat)
  | ack
  deriving DecidableEq

/-- `d5next_send_ctrl_data`: recompute the checksum and store it big-endian
into the trailing crc field (bytes 807, 808), yielding the uploaded blob. -/
def d5next_send_ctrl_data (buf : List Nat) : List Nat :=
  let c := d5next_checksum buf
  (buf.set 807 (c / 256 % 256)).set 808 (c % 256)

/-- Result of a write transaction: return code, final buffer contents, and
the device I/O requests issued (in order). -/
structure SetValOut where
  ret : Int
  buf : List Nat
  ops : List DevOp
  deriving DecidableEq

/-- The patch step of `d5next_set_val`: `put_unaligned_be16` for size 16
(truncating the value to 16 bits), a single byte store for size 8,
no change otherwise. -/
def patchField (buf : List Nat) (off val size : Nat) : List Nat :=
  if size = 16 then (buf.set off (val % 65536 / 256)).set (off + 1) (val % 256)
  else if size = 8 then buf.set off (val % 256)
  else buf

/-- `d5next_set_val` (successful-download path): the full blob is downloaded
first, then the size is checked; sizes other than 8 and 16 bits return
-EINVAL after the download but without any upload. -/
def d5next_set_val (dev : List Nat) (off val size : Nat) : SetValOut :=
  if size = 16 ∨ size = 8 then
    let out := d5next_send_ctrl_data (patchField dev off val size)
    { ret := 0, buf := out, ops := [DevOp.download, DevOp.upload out, DevOp.ack] }
  else { ret := -22, buf := dev, ops := [DevOp.download] }

/-- `d5next_userspace_to_internal_channel`: Pump is 0 outside, 1 inside;
Fan is 1 outside, 0 inside; anything else is invalid. -/
def d5next_userspace_to_internal_channel (x : Nat) : Option Nat :=
  match x with
  | 0 => some 1
  | 1 => some 0
  | _ => none

/-- `d5next_percent_to_pwm`: device fixed-point percent (10000 = 100.00%,
big-endian in memory, hence the `ntohs`) to the 0..255 hwmon unit. -/
def d5next_percent_to_pwm (x : Nat) : Nat :=
  DIV_ROUND_CLOSEST (ntohs x * 255) (100 * 100)

/-- `d5next_pwm_to_percent`: hwmon 0..255 unit to device fixed-point percent
(host order; the caller stores it big-endian). -/
def d5next_pwm_to_percent (x : Nat) : Nat :=
  DIV_ROUND_CLOSEST (x * 100 * 100) 255

/-- The cached sensor state of `struct d5next_data` (the fields the claims
touch), with `speed_input` and `speed_setpoint` indexed by the internal
channel numbering (fan = 0, pump = 1). -/
structure D5NextData where
  temp_input : Nat
  speed_input : List Nat
  speed_setpoint : List Nat
  power_input : List Nat
  voltage_input : List Nat
  current_input : List Nat
  serial_number : List Nat
  firmware_version : Nat
  power_cycles : Nat
  updated : Nat
  deriving DecidableEq

/-- The zeroed state `devm_kzalloc` produces in `d5next_probe`. -/
def initData : D5NextData :=
  { temp_input := 0, speed_input := [0, 0], speed_setpoint := [0, 0],
    power_input := [0, 0], voltage_input := [0, 0, 0], current_input := [0, 0],
    serial_number := [0, 0], firmware_version := 0, power_cycles := 0,
    updated := 0 }

/-- The state right after `d5next_probe` at tick `t0`: all sensor fields are
zeroed and `updated` is set to `jiffies - STATUS_UPDATE_INTERVAL`. -/
def d5next_probe_state (t0 : Nat) : D5NextData :=
  { initData with updated := t0 - STATUS_UPDATE_INTERVAL }

/-- `d5next_raw_event`: if the report id is not the sensor report id the
message is ignored; otherwise every field is decoded at its fixed offset and
the snapshot plus timestamp are overwritten.  The C function receives a
`size` argument but never reads it, so the model ignores it too; `data` is a
byte memory, and a short message simply makes the offsets reach past its end.
Note the setpoints: the C code reads a single byte (`*(data + FAN_SETPOINT)`)
and hands it to `d5next_percent_to_pwm`. -/
def d5next_raw_event (priv : D5NextData) (reportId : Nat) (data : Nat → Nat)
    (_size : Nat) (now : Nat) : D5NextData :=
  if reportId ≠ SENSOR_REPORT_ID then priv
  else
    { priv with
      serial_number := [get_unaligned_be16 data SERIAL_FIRST_PART,
                        get_unaligned_be16 data SERIAL_SECOND_PART],
      firmware_version := get_unaligned_be16 data FIRMWARE_VERSION,
      power_cycles := get_unaligned_be32 data POWER_CYCLES,
      temp_input := get_unaligned_be16 data COOLANT_TEMP * 10,
      speed_input := [get_unaligned_be16 data FAN_SPEED,
                      get_unaligned_be16 data PUMP_SPEED],
      speed_setpoint := [d5next_percent_to_pwm (data FAN_SETPOINT % 256),
                         d5next_percent_to_pwm (data PUMP_SETPOINT % 256)],
      power_input := [get_unaligned_be16 data PUMP_POWER * 10000,
                      get_unaligned_be16 data FAN_POWER * 10000],
      voltage_input := [get_unaligned_be16 data PUMP_VOLTAGE * 10,
                        get_unaligned_be16 data FAN_VOLTAGE * 10,
                        get_unaligned_be16 data PLUS_5V_VOLTAGE * 10],
      current_input := [get_unaligned_be16 data PUMP_CURRENT,
                        get_unaligned_be16 data FAN_CURRENT],
      updated := now }

/-- Kernel `time_after(a, b)` on the non-wrapping clock model. -/
def time_after (a b : Nat) : Bool := decide (b < a)

inductive HwmonType
  | temp
  | fan
  | power
  | pwm
  | voltage_in
  | curr
  | other
  deriving DecidableEq

inductive HwmonAttr
  | pwm_input
  | pwm_enable
  | fan_input
  | fan_max
  | plain
  deriving DecidableEq

/-- `d5next_read_pwm` (successful-download path): translate the channel,
then for `pwm_input` return the raw `manual_setpoint` u16 in manual mode
(mode byte 0) or the cached telemetry setpoint otherwise; for `pwm_enable`
return the mode byte. -/
def d5next_read_pwm (dev : List Nat) (priv : D5NextData) (attr : HwmonAttr)
    (channel : Nat) : Except Int Nat :=
  match d5next_userspace_to_internal_channel channel with
  | none => Except.error (-61)
  | some ch =>
    match attr with
    | HwmonAttr.pwm_input =>
        if dev.getD (mode_offset ch) 0 = 0 then
          Except.ok (read_u16_host dev (manual_setpoint_offset ch))
        else
          Except.ok (priv.speed_setpoint.getD ch 0)
    | HwmonAttr.pwm_enable => Except.ok (dev.getD (mode_offset ch) 0)
    | _ => Except.error (-61)

/-- `d5next_read_fan` (successful-download path). -/
def d5next_read_fan (dev : List Nat) (priv : D5NextData) (attr : HwmonAttr)
    (channel : Nat) : Except Int Nat :=
  match d5next_userspace_to_internal_channel channel with
  | none => Except.error (-61)
  | some ch =>
    match attr with
    | HwmonAttr.fan_input => Except.ok (priv.speed_input.getD ch 0)
    | HwmonAttr.fan_max => Except.ok (ntohs (read_u16_host dev (max_speed_offset ch)))
    | _ => Except.error (-61)

/-- `d5next_read`: the staleness gate `time_after(jiffies,
updated + STATUS_UPDATE_INTERVAL)` rejects with -ENODATA first, then the
sensor type dispatches either to a cached field or to the pwm/fan readers. -/
def d5next_read (priv : D5NextData) (dev : List Nat) (ty : HwmonType)
    (attr : HwmonAttr) (channel now : Nat) : Except Int Nat :=
  if time_after now (priv.updated + STATUS_UPDATE_INTERVAL) then
    Except.error (-61)
  else
    match ty with
    | HwmonType.temp => Except.ok priv.temp_input
    | HwmonType.fan => d5next_read_fan dev priv attr channel
    | HwmonType.power => Except.ok (priv.power_input.getD channel 0)
    | HwmonType.pwm => d5next_read_pwm dev priv attr channel
    | HwmonType.voltage_in => Except.ok (priv.voltage_input.getD channel 0)
    | HwmonType.curr => Except.ok (priv.current_input.getD channel 0)
    | HwmonType.other => Except.error (-95)

/-- `d5next_set_auto_temp` (store path, parse already succeeded): translate
the channel, halve-round the millidegree input to centidegrees, pick
`curve.start_temp` for index 17 and `curve.temps[idx]` otherwise (the C
pointer arithmetic is applied verbatim, also for `idx ≥ 16`), then run the
16-bit write transaction. -/
def d5next_set_auto_temp (dev : List Nat) (nr idx : Nat) (val : Nat) : SetValOut :=
  match d5next_userspace_to_internal_channel nr with
  | none => { ret := -22, buf := dev, ops := [] }
  | some ch =>
    let v := DIV_ROUND_CLOSEST val 10
    let off := if idx = NUM_CTRL_CURVE_POINTS + 1 then curve_start_temp_offset ch
               else curve_temps_offset ch idx
    d5next_set_val dev off v 16

/-- The sysfs store handler wired to `pwm<nr+1>_min`: the attribute table
registers `d5next_set_auto_temp` with index `IDX_MIN_PWM`. -/
def pwm_min_store (dev : List Nat) (nr : Nat) (val : Nat) : SetValOut :=
  d5next_set_auto_temp dev nr IDX_MIN_PWM val

/-- The sysfs store handler wired to `pwm<nr+1>_max`: the attribute table
registers `d5next_set_auto_temp` with index `IDX_MAX_PWM`. -/
def pwm_max_store (dev : List Nat) (nr : Nat) (val : Nat) : SetValOut :=
  d5next_set_auto_temp dev nr IDX_MAX_PWM val

/-- `d5next_set_pwm_setpoint`: range-check the 0..255 value, convert it with
`d5next_pwm_to_percent` and write it (16-bit, big-endian on the wire) to
`fan_ctrl[channel].manual_setpoint`. -/
def d5next_set_pwm_setpoint (dev : List Nat) (ch : Nat) (val : Int) : SetValOut :=
  if val < 0 ∨ val > 255 ∨ ¬ ch < 2 then { ret := -22, buf := dev, ops := [] }
  else d5next_set_val dev (manual_setpoint_offset ch) (d5next_pwm_to_percent val.toNat) 16

/-- A concrete telemetry message (as byte memory): pump speed bytes
`09 C4` (2500) at offset 0x74, pump setpoint bytes `00 FF` (raw 255,
i.e. 2.55%) at offsets 0x79, 0x7A, zero elsewhere. -/
def c5mem : Nat → Nat := fun i =>
  ((((List.replicate 0x7B 0).set 0x74 0x09).set 0x75 0xC4).set 0x7A 0xFF).getD i 0

/-- A concrete configuration blob: channel 0 (internal fan) in manual mode
(mode byte 0 at offset 65) with `manual_setpoint` bytes `27 10`
(big-endian 10000 = 100.00%) at offsets 66, 67, zero elsewhere. -/
def c6blob : List Nat := ((List.replicate 809 0).set 66 0x27).set 67 0x10

/-- A previously ingested snapshot: coolant temperature 555, timestamp 10. -/
def c9prev : D5NextData := { initData with temp_input := 555, updated := 10 }

/-! ## Helper lemmas -/

theorem xor_div_two (a b : Nat) : (a ^^^ b) / 2 = a / 2 ^^^ b / 2 := by
  rw [← Nat.shiftRight_one, ← Nat.shiftRight_one, ← Nat.shiftRight_one]
  apply Nat.eq_of_testBit_eq
  intro i
  simp [Nat.testBit_shiftRight, Nat.testBit_xor]

theorem xor_mod_two (a b : Nat) : (a ^^^ b) % 2 = a % 2 ^^^ b % 2 := by
  rw [← Nat.and_one_is_mod, ← Nat.and_one_is_mod, ← Nat.and_one_is_mod,
    Nat.and_xor_distrib_right]

theorem xor_left_comm (a b c : Nat) : a ^^^ (b ^^^ c) = b ^^^ (a ^^^ c) := by
  rw [← Nat.xor_assoc, Nat.xor_comm a b, Nat.xor_assoc]

theorem xor_cancel_left (a b : Nat) : a ^^^ (a ^^^ b) = b := by
  rw [← Nat.xor_assoc, Nat.xor_self, Nat.zero_xor]

theorem crc16_shift_eq (c : Nat) : crc16_shift c = c / 2 ^^^ c % 2 * 0xA001 := by
  rcases Nat.mod_two_eq_zero_or_one c with h | h <;> simp [crc16_shift, h]

theorem crc16_shift_xor (a b : Nat) :
    crc16_shift (a ^^^ b) = crc16_shift a ^^^ crc16_shift b := by
  rw [crc16_shift_eq, crc16_shift_eq, crc16_shift_eq, xor_div_two, xor_mod_two]
  rcases Nat.mod_two_eq_zero_or_one a with ha | ha <;>
    rcases Nat.mod_two_eq_zero_or_one b with hb | hb <;>
      simp [ha, hb, Nat.xor_assoc, Nat.xor_comm, xor_left_comm, xor_cancel_left]

theorem crc16_shift_iterate_xor (n a b : Nat) :
    crc16_shift^[n] (a ^^^ b) = crc16_shift^[n] a ^^^ crc16_shift^[n] b := by
  induction n generalizing a b with
  | zero => rfl
  | succ n ih =>
    rw [Function.iterate_succ_apply, Function.iterate_succ_apply,
      Function.iterate_succ_apply, crc16_shift_xor, ih]

theorem crcBitStep_eq (c : Nat) (bit : Bool) :
    crcBitStep c bit = crc16_shift (c ^^^ (if bit then 1 else 0)) := by
  cases bit with
  | false =>
    rcases Nat.mod_two_eq_zero_or_one c with h | h <;>
      simp [crcBitStep, crc16_shift, h]
  | true =>
    have hd : (c ^^^ 1) / 2 = c / 2 := by
      rw [xor_div_two]
      simp
    have hm : (c ^^^ 1) % 2 = c % 2 ^^^ 1 := by
      rw [xor_mod_two]
    rcases Nat.mod_two_eq_zero_or_one c with h | h <;>
      simp [crcBitStep, crc16_shift, h, hd, hm]

theorem foldl_crcBitStep_xor (bs : List Bool) (c d : Nat) :
    bs.foldl crcBitStep (c ^^^ d)
      = bs.foldl crcBitStep c ^^^ crc16_shift^[bs.length] d := by
  induction bs generalizing c d with
  | nil => rfl
  | cons bit bs ih =>
    have h1 : crcBitStep (c ^^^ d) bit = crcBitStep c bit ^^^ crc16_shift d := by
      rw [crcBitStep_eq, crcBitStep_eq, Nat.xor_assoc c d, Nat.xor_comm d,
        ← Nat.xor_assoc, crc16_shift_xor]
    rw [List.foldl_cons, List.foldl_cons, h1, ih, List.length_cons,
      Function.iterate_succ_apply]

set_option maxRecDepth 100000 in
theorem foldl_crcBitStep_byteBits_zero :
    ∀ b < 256, (byteBits b).foldl crcBitStep 0 = crc16_shift^[8] b := by decide

theorem foldl_crcBitStep_byteBits (c b : Nat) (hb : b < 256) :
    (byteBits b).foldl crcBitStep c = crc16_byte c b := by
  have h0 := foldl_crcBitStep_xor (byteBits b) 0 c
  rw [Nat.zero_xor] at h0
  rw [h0, foldl_crcBitStep_byteBits_zero b hb]
  show crc16_shift^[8] b ^^^ crc16_shift^[8] c = crc16_byte c b
  rw [crc16_byte, crc16_shift_iterate_xor, Nat.xor_comm]

theorem flatten_foldl_crcBitStep (bs : List Nat) (c : Nat)
    (hb : ∀ b ∈ bs, b < 256) :
    ((bs.map byteBits).flatten).foldl crcBitStep c = crc16 c bs := by
  induction bs generalizing c with
  | nil => rfl
  | cons b bs ih =>
    rw [List.map_cons, List.flatten_cons, List.foldl_append,
      foldl_crcBitStep_byteBits c b (hb b (by simp))]
    exact ih _ (fun x hx => hb x (by simp [hx]))

theorem range_take_set_high (l : List Nat) (i a : Nat) (h : 807 ≤ i) :
    ((l.set i a).drop 1).take 806 = (l.drop 1).take 806 := by
  have h1 : ((l.set i a).take 807).drop 1 = ((l.take 807).set i a).drop 1 := by
    rw [List.set_take]
  have h2 : (l.take 807).set i a = l.take 807 := by
    apply List.set_eq_of_length_le
    calc (l.take 807).length ≤ 807 := by simp [List.length_take]
    _ ≤ i := h
  rw [show (806 : Nat) = 807 - 1 from rfl, ← List.drop_take, ← List.drop_take, h1, h2]

/-! ## Claim theorems -/

/-- The claim C1: for every configuration blob, whatever the prior contents
of its trailing crc field (bytes 807, 808, overwritten here with arbitrary
`x`, `y` to model the stale checksum of the download), the upload step
stores, big-endian in that trailing field, exactly the CRC-16/USB
(polynomial 0x8005 reflected, initial value 0xFFFF, xor-out 0xFFFF) of the
sub-range starting at byte offset 1 with length 0x326 — so the checksum is
recomputed from the current buffer contents, never reused. -/
theorem d5next_c1_checksum (blob : List Nat) (x y : Nat)
    (hb : ∀ b ∈ (blob.drop 1).take 806, b < 256) :
    d5next_send_ctrl_data ((blob.set 807 x).set 808 y)
      = (((blob.set 807 x).set 808 y).set 807
            (crc16_usb_ref ((blob.drop 1).take 806) / 256 % 256)).set 808
          (crc16_usb_ref ((blob.drop 1).take 806) % 256) := by
  have e1 : ((blob.set 807 x).drop 1).take 806 = (blob.drop 1).take 806 :=
    range_take_set_high blob 807 x (by omega)
  have e2 : (((blob.set 807 x).set 808 y).drop 1).take 806
      = ((blob.set 807 x).drop 1).take 806 :=
    range_take_set_high _ 808 y (by omega)
  have hc : d5next_checksum ((blob.set 807 x).set 808 y)
      = crc16_usb_ref ((blob.drop 1).take 806) := by
    rw [d5next_checksum, STATUS_REPORT_CHECKSUM_START, STATUS_REPORT_CHECKSUM_LENGTH]
    rw [show (0x326 : Nat) = 806 from rfl, e2, e1, crc16_usb_ref,
      flatten_foldl_crcBitStep _ _ hb]
  rw [d5next_send_ctrl_data, hc]

/-- Witness for C1 at a concrete blob of 809 zero bytes with a nonzero
stale crc field. -/
theorem d5next_c1_checksum_witness :
    d5next_send_ctrl_data (((List.replicate 809 0).set 807 31).set 808 94)
      = ((((List.replicate 809 0).set 807 31).set 808 94).set 807
            (crc16_usb_ref (((List.replicate 809 0).drop 1).take 806) / 256 % 256)).set 808
          (crc16_usb_ref (((List.replicate 809 0).drop 1).take 806) % 256) :=
  d5next_c1_checksum (List.replicate 809 0) 31 94 (by
    intro b hbm
    rw [List.drop_replicate, List.take_replicate] at hbm
    have h0 := List.eq_of_mem_replicate hbm
    omega)

/-- The claim C2: in a single-field write transaction of width 1 or 2 bytes
(size 8 or 16 bits), the patch step leaves every byte outside the targeted
field exactly as downloaded, and the uploaded blob moreover agrees with the
download on every byte outside the targeted field and the trailing checksum
field (bytes 807, 808), which the upload step alone rewrites. -/
theorem d5next_c2_patch_exact (dev : List Nat) (off val size i j : Nat)
    (hs : size = 8 ∨ size = 16)
    (hi : i < off ∨ off + size / 8 ≤ i)
    (hj : j < off ∨ off + size / 8 ≤ j) (hj807 : j ≠ 807) (hj808 : j ≠ 808) :
    (patchField dev off val size)[i]? = dev[i]? ∧
    (d5next_set_val dev off val size).buf[j]? = dev[j]? := by
  have hpatch : ∀ k, k < off ∨ off + size / 8 ≤ k →
      (patchField dev off val size)[k]? = dev[k]? := by
    intro k hk
    rcases hs with h | h <;> subst h
    · rw [patchField, if_neg (by omega), if_pos rfl]
      exact List.getElem?_set_ne (by omega)
    · rw [patchField, if_pos rfl,
        List.getElem?_set_ne (show off + 1 ≠ k by omega),
        List.getElem?_set_ne (show off ≠ k by omega)]
  refine ⟨hpatch i hi, ?_⟩
  have hsz : size = 16 ∨ size = 8 := hs.symm
  rw [d5next_set_val, if_pos hsz]
  show (d5next_send_ctrl_data (patchField dev off val size))[j]? = dev[j]?
  rw [d5next_send_ctrl_data]
  show ((((patchField dev off val size)).set 807 _).set 808 _)[j]? = dev[j]?
  rw [List.getElem?_set_ne (Ne.symm hj808), List.getElem?_set_ne (Ne.symm hj807)]
  exact hpatch j hj

/-- Witness for C2: a 16-bit write of 5020 at the fan manual setpoint
(offset 66) leaves byte 100 of the uploaded blob and byte 807 of the merely
patched blob untouched. -/
theorem d5next_c2_patch_exact_witness :
    (patchField (List.range 809) 66 5020 16)[807]? = (List.range 809)[807]? ∧
    (d5next_set_val (List.range 809) 66 5020 16).buf[100]? = (List.range 809)[100]? :=
  d5next_c2_patch_exact (List.range 809) 66 5020 16 807 100 (Or.inr rfl)
    (by omega) (by omega) (by omega) (by omega)

/-- Counterexample to the claim C3: a write transaction of unsupported width
(32 bits) does fail with -EINVAL, but only after the full-blob download
request has been issued — the claim that no device I/O occurs is false. -/
theorem d5next_c3_counterexample :
    (d5next_set_val (List.replicate 809 0) 100 5 32).ret = -22 ∧
    (d5next_set_val (List.replicate 809 0) 100 5 32).ops = [DevOp.download] := by
  constructor
  · rfl
  · rfl

/-- The claim C3 as amended: a write transaction whose width is neither
8 nor 16 bits fails with -EINVAL and issues no upload and no
acknowledgement, but the full-blob download request is issued first
(the width check happens only after the download). -/
theorem d5next_c3_unsupported_width (dev : List Nat) (off val size : Nat)
    (h8 : size ≠ 8) (h16 : size ≠ 16) :
    (d5next_set_val dev off val size).ret = -22 ∧
    (d5next_set_val dev off val size).ops = [DevOp.download] := by
  rw [d5next_set_val, if_neg (by simp [h8, h16])]
  exact ⟨rfl, rfl⟩

/-- Witness for the amended C3 at width 24 bits. -/
theorem d5next_c3_unsupported_width_witness :
    (d5next_set_val (List.replicate 809 7) 10 9 24).ret = -22 ∧
    (d5next_set_val (List.replicate 809 7) 10 9 24).ops = [DevOp.download] :=
  d5next_c3_unsupported_width (List.replicate 809 7) 10 9 24 (by omega) (by omega)

/-- Counterexample to the claim C4: with `updated = 0` and a read issued at
`now = STATUS_UPDATE_INTERVAL` we have `now - lastUpdated = updateInterval`,
so the claim demands the stale-data error, but the strict `time_after`
comparison lets the read succeed and return the cached value. -/
theorem d5next_c4_counterexample :
    d5next_read initData (List.replicate 809 0) HwmonType.temp HwmonAttr.plain 0
        STATUS_UPDATE_INTERVAL = Except.ok 0 ∧
    d5next_read initData (List.replicate 809 0) HwmonType.temp HwmonAttr.plain 0
        STATUS_UPDATE_INTERVAL ≠ Except.error (-61) := by
  have h0 : d5next_read initData (List.replicate 809 0) HwmonType.temp
      HwmonAttr.plain 0 STATUS_UPDATE_INTERVAL = Except.ok 0 := rfl
  refine ⟨h0, ?_⟩
  rw [h0]
  intro h
  exact Except.noConfusion h

/-- The claim C4 as amended: a cached-sensor read fails with -ENODATA when
`now` is strictly later than `lastUpdated + updateInterval` (at exactly
`now - lastUpdated = updateInterval` it still succeeds, see the
counterexample), and a read issued one tick after a fresh telemetry push
succeeds and returns the just-ingested snapshot value. -/
theorem d5next_c4_staleness (priv : D5NextData) (dev : List Nat)
    (ty : HwmonType) (attr : HwmonAttr) (ch now : Nat) (prev : D5NextData)
    (data : Nat → Nat) (sz t : Nat)
    (hstale : priv.updated + STATUS_UPDATE_INTERVAL < now) :
    d5next_read priv dev ty attr ch now = Except.error (-61) ∧
    d5next_read (d5next_raw_event prev SENSOR_REPORT_ID data sz t) dev
        HwmonType.temp attr ch (t + 1)
      = Except.ok ((d5next_raw_event prev SENSOR_REPORT_ID data sz t).temp_input) := by
  constructor
  · have hta : time_after now (priv.updated + STATUS_UPDATE_INTERVAL) = true := by
      simp [time_after]
      omega
    simp [d5next_read, hta]
  · have hupd : (d5next_raw_event prev SENSOR_REPORT_ID data sz t).updated = t := by
      simp [d5next_raw_event]
    have hta : time_after (t + 1) (t + STATUS_UPDATE_INTERVAL) = false := by
      simp [time_after, STATUS_UPDATE_INTERVAL, HZ]
    simp [d5next_read, hupd, hta]

/-- Witness for the amended C4: a stale read at tick 201 fails, and a read
one tick after a push at tick 7 returns the pushed coolant temperature. -/
theorem d5next_c4_staleness_witness :
    d5next_read initData [] HwmonType.temp HwmonAttr.plain 0 201
      = Except.error (-61) ∧
    d5next_read (d5next_raw_event initData SENSOR_REPORT_ID (fun _ => 3) 158 7) []
        HwmonType.temp HwmonAttr.plain 0 8
      = Except.ok ((d5next_raw_event initData SENSOR_REPORT_ID (fun _ => 3) 158 7).temp_input) :=
  d5next_c4_staleness initData [] HwmonType.temp HwmonAttr.plain 0 201 initData
    (fun _ => 3) 158 7 (by decide)

set_option maxRecDepth 100000 in
/-- The claim C5 fails on the code (code bug): at the failing input `c5mem`
(pump speed bytes big-endian 2500, pump setpoint raw big-endian 255 at
offset 0x79), the pump speed is decoded big-endian and exposed as 2500 RPM,
but the setpoint is NOT decoded as a big-endian 16-bit value: the C code
reads only the single byte at the offset, so the stored setpoint is 0,
while the big-endian decode converted to the 0..255 unit gives 7. -/
theorem d5next_c5_setpoint_not_be16 :
    (d5next_raw_event initData SENSOR_REPORT_ID c5mem 0x7B 3).speed_input.getD 1 0
      = 2500 ∧
    d5next_read (d5next_raw_event initData SENSOR_REPORT_ID c5mem 0x7B 3)
        (List.replicate 809 0) HwmonType.fan HwmonAttr.fan_input 0 3
      = Except.ok 2500 ∧
    (d5next_raw_event initData SENSOR_REPORT_ID c5mem 0x7B 3).speed_setpoint.getD 1 0
      = 0 ∧
    DIV_ROUND_CLOSEST (get_unaligned_be16 c5mem PUMP_SETPOINT * 255) (100 * 100)
      = 7 ∧
    (d5next_raw_event initData SENSOR_REPORT_ID c5mem 0x7B 3).speed_setpoint.getD 1 0
      ≠ DIV_ROUND_CLOSEST (get_unaligned_be16 c5mem PUMP_SETPOINT * 255) (100 * 100) := by
  refine ⟨rfl, rfl, rfl, rfl, ?_⟩
  decide

set_option maxRecDepth 100000 in
/-- The claim C6 fails on the code (code bug): with channel 0 (internal fan)
in manual mode and `manual_setpoint` = big-endian 10000 (100.00%), the
external `pwm_input` read returns the raw host-order u16 4135 instead of a
0..255 value — `d5next_percent_to_pwm` is never applied on this path,
though applying it to the same field would give 255. -/
theorem d5next_c6_manual_unconverted :
    d5next_read initData c6blob HwmonType.pwm HwmonAttr.pwm_input 1 0
      = Except.ok 4135 ∧
    ¬ 4135 ≤ 255 ∧
    d5next_percent_to_pwm (read_u16_host c6blob (manual_setpoint_offset 0)) = 255 := by
  refine ⟨rfl, by omega, rfl⟩

theorem send_getElem_ne (buf : List Nat) (j : Nat) (h807 : j ≠ 807)
    (h808 : j ≠ 808) : (d5next_send_ctrl_data buf)[j]? = buf[j]? := by
  show ((buf.set 807 (d5next_checksum buf / 256 % 256)).set 808
      (d5next_checksum buf % 256))[j]? = buf[j]?
  rw [List.getElem?_set_ne (Ne.symm h808), List.getElem?_set_ne (Ne.symm h807)]

set_option maxRecDepth 100000 in
/-- The claim C7 fails on the code (code bug): writing 1280 to the external
`pwm1_min` attribute (userspace channel 0 = pump, internal channel 1) does
not touch `fan_properties[1].min_pwm` (bytes 57, 58 stay 0); instead the
store handler is `d5next_set_auto_temp` with index 18, whose pointer
arithmetic lands on `fan_ctrl[1].curve.powers[2]` (bytes 207, 208), and the
value is divided by 10 (1280 → 128) instead of converted with
`d5next_pwm_to_percent`. -/
theorem d5next_c7_min_pwm_miswired :
    (pwm_min_store (List.replicate 809 0) 0 1280).buf[min_pwm_offset 1]? = some 0 ∧
    (pwm_min_store (List.replicate 809 0) 0 1280).buf[min_pwm_offset 1 + 1]? = some 0 ∧
    (pwm_min_store (List.replicate 809 0) 0 1280).buf[curve_powers_offset 1 2]? = some 0 ∧
    (pwm_min_store (List.replicate 809 0) 0 1280).buf[curve_powers_offset 1 2 + 1]? = some 128 ∧
    curve_temps_offset 1 IDX_MIN_PWM = curve_powers_offset 1 2 := by
  have e1 : min_pwm_offset 1 = 57 := rfl
  have e2 : curve_powers_offset 1 2 = 207 := rfl
  have hb1 : pwm_min_store (List.replicate 809 0) 0 1280
      = d5next_set_val (List.replicate 809 0) (curve_temps_offset 1 IDX_MIN_PWM)
          (DIV_ROUND_CLOSEST 1280 10) 16 := rfl
  have hb2 : (d5next_set_val (List.replicate 809 0) (curve_temps_offset 1 IDX_MIN_PWM)
        (DIV_ROUND_CLOSEST 1280 10) 16).buf
      = d5next_send_ctrl_data (patchField (List.replicate 809 0)
          (curve_temps_offset 1 IDX_MIN_PWM) (DIV_ROUND_CLOSEST 1280 10) 16) := rfl
  have hoff : curve_temps_offset 1 IDX_MIN_PWM = 207 := rfl
  have hv : DIV_ROUND_CLOSEST 1280 10 = 128 := rfl
  have hbuf : (pwm_min_store (List.replicate 809 0) 0 1280).buf
      = d5next_send_ctrl_data (patchField (List.replicate 809 0) 207 128 16) := by
    rw [hb1, hb2, hoff, hv]
  have hp : patchField (List.replicate 809 0) 207 128 16
      = ((List.replicate 809 0).set 207 (128 % 65536 / 256)).set 208 (128 % 256) := by
    rw [patchField, if_pos rfl]
  have hlen207 : (207 : Nat) < (List.replicate 809 (0:Nat)).length := by
    rw [List.length_replicate]
    omega
  have hlen208 : (208 : Nat) < ((List.replicate 809 (0:Nat)).set 207 (128 % 65536 / 256)).length := by
    rw [List.length_set, List.length_replicate]
    omega
  rw [e1, e2]
  refine ⟨?_, ?_, ?_, ?_, rfl⟩
  · rw [hbuf, send_getElem_ne _ _ (by omega) (by omega), hp,
      List.getElem?_set_ne (by omega), List.getElem?_set_ne (by omega),
      List.getElem?_replicate, if_pos (by omega)]
  · rw [hbuf, send_getElem_ne _ _ (by omega) (by omega), hp,
      List.getElem?_set_ne (by omega), List.getElem?_set_ne (by omega),
      List.getElem?_replicate, if_pos (by omega)]
  · rw [hbuf, send_getElem_ne _ _ (by omega) (by omega), hp,
      List.getElem?_set_ne (by omega), List.getElem?_set_self hlen207]
  · rw [hbuf, send_getElem_ne _ _ (by omega) (by omega), hp,
      List.getElem?_set_self hlen208]

set_option maxRecDepth 100000 in
/-- The claim C8: converting a 0..255 control unit with
`d5next_pwm_to_percent`, storing it big-endian on the wire, loading it back
as a host u16 and converting with `d5next_percent_to_pwm` yields a value
within 1 of the original (in fact the round trip is exact). -/
theorem d5next_c8_roundtrip (u : Nat) (hu : u < 256) :
    Nat.dist (d5next_percent_to_pwm
      (read_u16_host [d5next_pwm_to_percent u / 256 % 256,
        d5next_pwm_to_percent u % 256] 0)) u ≤ 1 := by
  revert u
  decide

/-- Witness for C8 at the control unit 128 (5020 on the wire). -/
theorem d5next_c8_roundtrip_witness :
    Nat.dist (d5next_percent_to_pwm
      (read_u16_host [d5next_pwm_to_percent 128 / 256 % 256,
        d5next_pwm_to_percent 128 % 256] 0)) 128 ≤ 1 :=
  d5next_c8_roundtrip 128 (by omega)

/-- The claim C9 fails on the code (code bug): `d5next_raw_event` never
reads its `size` argument, so a 5-byte message with the telemetry report id
is not detected as short and not dropped — every snapshot field and the
timestamp are overwritten (here from the out-of-bounds zero memory past the
message end): the previous temperature 555 becomes 0 and the previous
timestamp 10 becomes 50. -/
theorem d5next_c9_short_message_not_dropped :
    (d5next_raw_event c9prev SENSOR_REPORT_ID (fun _ => 0) 5 50).temp_input = 0 ∧
    (d5next_raw_event c9prev SENSOR_REPORT_ID (fun _ => 0) 5 50).updated = 50 ∧
    c9prev.temp_input = 555 ∧
    c9prev.updated = 10 ∧
    d5next_raw_event c9prev SENSOR_REPORT_ID (fun _ => 0) 5 50 ≠ c9prev := by
  refine ⟨rfl, rfl, rfl, rfl, ?_⟩
  intro h
  have h5 : (d5next_raw_event c9prev SENSOR_REPORT_ID (fun _ => 0) 5 50).updated
      = c9prev.updated := by rw [h]
  rw [show (d5next_raw_event c9prev SENSOR_REPORT_ID (fun _ => 0) 5 50).updated
      = 50 from rfl, show c9prev.updated = 10 from rfl] at h5
  omega

/-- The claim C10: right after probe the timestamp is one update interval in
the past, so a cached read in the same tick passes the strict `time_after`
gate and returns the zero-initialized snapshot (temperature 0, power 0,
speed 0), while a read one or more ticks later fails with -ENODATA. -/
theorem d5next_c10_probe_fresh (t0 k : Nat) (dev : List Nat)
    (ht : STATUS_UPDATE_INTERVAL ≤ t0) (hk : 1 ≤ k) :
    d5next_read (d5next_probe_state t0) dev HwmonType.temp HwmonAttr.plain 0 t0
      = Except.ok 0 ∧
    d5next_read (d5next_probe_state t0) dev HwmonType.power HwmonAttr.plain 0 t0
      = Except.ok 0 ∧
    d5next_read (d5next_probe_state t0) dev HwmonType.fan HwmonAttr.fan_input 0 t0
      = Except.ok 0 ∧
    d5next_read (d5next_probe_state t0) dev HwmonType.temp HwmonAttr.plain 0 (t0 + k)
      = Except.error (-61) := by
  have hsum : t0 - STATUS_UPDATE_INTERVAL + STATUS_UPDATE_INTERVAL = t0 :=
    Nat.sub_add_cancel ht
  have hta : time_after t0 (t0 - STATUS_UPDATE_INTERVAL + STATUS_UPDATE_INTERVAL)
      = false := by
    rw [hsum]
    simp [time_after]
  have hta2 : time_after (t0 + k)
      (t0 - STATUS_UPDATE_INTERVAL + STATUS_UPDATE_INTERVAL) = true := by
    rw [hsum]
    simp [time_after]
    omega
  refine ⟨?_, ?_, ?_, ?_⟩ <;>
    simp [d5next_read, d5next_probe_state, initData, hta, hta2, d5next_read_fan,
      d5next_userspace_to_internal_channel]

/-- Witness for C10 at probe tick 500 with a read 3 ticks later. -/
theorem d5next_c10_probe_fresh_witness :
    d5next_read (d5next_probe_state 500) [] HwmonType.temp HwmonAttr.plain 0 500
      = Except.ok 0 ∧
    d5next_read (d5next_probe_state 500) [] HwmonType.power HwmonAttr.plain 0 500
      = Except.ok 0 ∧
    d5next_read (d5next_probe_state 500) [] HwmonType.fan HwmonAttr.fan_input 0 500
      = Except.ok 0 ∧
    d5next_read (d5next_probe_state 500) [] HwmonType.temp HwmonAttr.plain 0 (500 + 3)
      = Except.error (-61) :=
  d5next_c10_probe_fresh 500 3 [] (by decide) (by omega)
